import Mathlib

/-!
Verification of the Mayo property/settings framework and DXF reader slice.

The definitions below shallowly embed the C++ sources:
  * src/base/property_builtins.h and the inlined part of src/base/property.h
    (the value-write protocol Property::setValueHelper, GenericProperty<T>,
    PropertyScalarConstraints<T>, GenericPropertyQuantity<UNIT>),
  * src/base/settings.h (the Settings registry; its .cpp body is outside this
    slice, so the registry operations are modelled from the spec),
  * io_dxf.cpp (DxfReader callbacks OnReadLine / OnReadCircle / OnReadInsert,
    toPnt, addShape).

Machine doubles are modelled as exact rationals; C++ bool as Bool; fallible
operations return an explicit Result value.
-/

namespace Mayo

/-- Result of a fallible operation, mirroring Result<void> from result.h:
either ok, or an error carrying a human-readable message. -/
inductive Result where
  | ok : Result
  | error (msg : String) : Result
deriving DecidableEq, Repr

/-- Result<void>::valid(): true exactly on ok. -/
def Result.valid : Result → Bool
  | .ok => true
  | .error _ => false

/-- Observable outcome of one write through Property::setValueHelper: the
returned result, the value stored in the cell after the call, and whether
Property::notifyChanged was invoked during the call. -/
structure WriteOutcome (α : Type) where
  result : Result
  stored : α
  notified : Bool
deriving DecidableEq, Repr

/-- Embedding of Property::setValueHelper (property.h lines 386-405).
hasGroup models prop->hasGroup(); isValid models prop->isValid(), which the
source evaluates after the new value has been assigned to the cell, so it is a
function of the candidate value. With a group: save the previous value, store
the new one, validate; on failure restore the previous value without
notifying, on success keep the new value and invoke notifyChanged. Without a
group: store unconditionally and notify. -/
def setValueHelper {α : Type} (hasGroup : Bool) (isValid : α → Result)
    (oldValue newValue : α) : WriteOutcome α :=
  if hasGroup then
    let r := isValid newValue
    if r.valid then ⟨r, newValue, true⟩
    else ⟨r, oldValue, false⟩
  else ⟨Result.ok, newValue, true⟩

/-- Value cell of GenericProperty<T> (property_builtins.h line 40). -/
structure GenericProperty (α : Type) where
  m_value : α
deriving DecidableEq, Repr

/-- GenericProperty<T>::setValue (line 163): routes through setValueHelper. -/
def GenericProperty.setValue {α : Type} (hasGroup : Bool) (isValid : α → Result)
    (p : GenericProperty α) (val : α) : WriteOutcome α :=
  setValueHelper hasGroup isValid p.m_value val

/-- Unit categories of the quantity properties (property_builtins.h
lines 144-150: Length, Area, Volume, Mass, Time, Angle, Velocity). -/
inductive UnitKind where
  | Length | Area | Volume | Mass | Time | Angle | Velocity
deriving DecidableEq, Repr

/-- Model of QVariant restricted to the payload kinds these claims exercise: a
boxed native value together with its runtime type tag. A boxed quantity keeps
both its unit tag and its magnitude, as QVariant::fromValue on a
Quantity<UNIT> stores the full typed value. -/
inductive Variant where
  | vBool (b : Bool)
  | vInt (n : Int)
  | vString (s : String)
  | vQuantity (u : UnitKind) (magnitude : ℚ)
deriving DecidableEq, Repr

/-- GenericProperty<T>::valueAsVariant (line 168): QVariant::fromValue of the
current value; fromValue models Qt boxing for the concrete type T and is a
total function, so boxing always succeeds. -/
def GenericProperty.valueAsVariant {α : Type} (fromValue : α → Variant)
    (p : GenericProperty α) : Variant :=
  fromValue p.m_value

/-- GenericProperty<T>::setValueFromVariant (lines 173-180): when the variant
can convert to T, route through setValue (the normal write protocol), else
fail with "Incompatible type" and touch nothing. canConvert and conv model
QVariant::canConvert<T> and QVariant::value<T>. -/
def GenericProperty.setValueFromVariant {α : Type} (hasGroup : Bool)
    (isValid : α → Result) (canConvert : Variant → Bool) (conv : Variant → α)
    (p : GenericProperty α) (variant : Variant) : WriteOutcome α :=
  if canConvert variant then p.setValue hasGroup isValid (conv variant)
  else ⟨Result.error "Incompatible type", p.m_value, false⟩

/-- Qt boxing of an int value (QVariant::fromValue<int>). -/
def intFromValue : Int → Variant := Variant.vInt

/-- QVariant::canConvert<int> restricted to exact type match (an int property
accepts an int payload; the foreign payload kinds of this model do not
convert). -/
def intCanConvert : Variant → Bool
  | .vInt _ => true
  | _ => false

/-- QVariant::value<int>: the boxed int, or the default-constructed value when
the payload is of another kind. -/
def intConv : Variant → Int
  | .vInt n => n
  | _ => 0

/-- Quantity<UNIT> (qmeta_quantity.h): a magnitude in the unit's canonical
representation, tagged at the type level by its unit. -/
structure Quantity (u : UnitKind) where
  value : ℚ
deriving DecidableEq, Repr

/-- Value cell of GenericPropertyQuantity<UNIT> (property_builtins.h
line 120). -/
structure GenericPropertyQuantity (u : UnitKind) where
  m_quantity : Quantity u
deriving DecidableEq, Repr

/-- GenericPropertyQuantity<UNIT>::setQuantity (lines 242-246): routes through
Property::setValueHelper on the quantity cell. -/
def GenericPropertyQuantity.setQuantity {u : UnitKind} (hasGroup : Bool)
    (isValid : Quantity u → Result) (p : GenericPropertyQuantity u)
    (qty : Quantity u) : WriteOutcome (Quantity u) :=
  setValueHelper hasGroup isValid p.m_quantity qty

/-- GenericPropertyQuantity<UNIT>::valueAsVariant (lines 227-231):
QVariant::fromValue(this->quantity()); the boxed payload is the full
Quantity<UNIT>, hence carries the unit tag and the magnitude. -/
def GenericPropertyQuantity.valueAsVariant {u : UnitKind}
    (p : GenericPropertyQuantity u) : Variant :=
  Variant.vQuantity u p.m_quantity.value

/-- QVariant::canConvert<Quantity<UNIT>>: a boxed quantity converts exactly
when its unit tag is the property's unit (each Quantity<UNIT> is its own
registered metatype). -/
def quantityCanConvert (u : UnitKind) : Variant → Bool
  | .vQuantity u' _ => u' == u
  | _ => false

/-- QVariant::value<Quantity<UNIT>>: the boxed magnitude on a type match,
else the default-constructed quantity. -/
def quantityConv (u : UnitKind) : Variant → Quantity u
  | .vQuantity _ m => ⟨m⟩
  | _ => ⟨0⟩

/-- GenericPropertyQuantity<UNIT>::setValueFromVariant (lines 233-240): on a
convertible payload route through setQuantity, else fail with "Incompatible
quantity type" and touch nothing. -/
def GenericPropertyQuantity.setValueFromVariant {u : UnitKind} (hasGroup : Bool)
    (isValid : Quantity u → Result) (p : GenericPropertyQuantity u)
    (variant : Variant) : WriteOutcome (Quantity u) :=
  if quantityCanConvert u variant then
    p.setQuantity hasGroup isValid (quantityConv u variant)
  else ⟨Result.error "Incompatible quantity type", p.m_quantity, false⟩

/-- Unit tag a consumer reads back from a boxed variant: the unit of a boxed
quantity, none for other payloads. -/
def Variant.quantityUnit : Variant → Option UnitKind
  | .vQuantity u _ => some u
  | _ => none

/-- Magnitude a consumer reads back from a boxed variant: the magnitude of a
boxed quantity, none for other payloads. -/
def Variant.quantityMagnitude : Variant → Option ℚ
  | .vQuantity _ m => some m
  | _ => none

/-- Fields of PropertyScalarConstraints<T> (property_builtins.h lines 66-70). -/
structure PropertyScalarConstraints (α : Type) where
  m_minimum : α
  m_maximum : α
  m_singleStep : α
  m_constraintsEnabled : Bool
deriving DecidableEq, Repr

/-- Default constructor PropertyScalarConstraints() (line 49): only
m_constraintsEnabled is initialized (to false); the C++ leaves
m_minimum/m_maximum/m_singleStep uninitialized, modelled here by arbitrary
arguments. -/
def PropertyScalarConstraints.mkDefault {α : Type}
    (minUninit maxUninit stepUninit : α) : PropertyScalarConstraints α :=
  ⟨minUninit, maxUninit, stepUninit, false⟩

/-- Three-argument constructor (lines 184-190): stores the bounds and the step
and enables the constraints. -/
def PropertyScalarConstraints.mkWithBounds {α : Type}
    (minimum maximum singleStep : α) : PropertyScalarConstraints α :=
  ⟨minimum, maximum, singleStep, true⟩

/-- PropertyScalarConstraints<T>::constraintsEnabled (line 52). -/
def PropertyScalarConstraints.constraintsEnabled {α : Type}
    (c : PropertyScalarConstraints α) : Bool :=
  c.m_constraintsEnabled

/-- PropertyScalarConstraints<T>::setConstraintsEnabled (line 53). -/
def PropertyScalarConstraints.setConstraintsEnabled {α : Type}
    (c : PropertyScalarConstraints α) (onFlag : Bool) : PropertyScalarConstraints α :=
  { c with m_constraintsEnabled := onFlag }

/-- PropertyScalarConstraints<T>::setMinimum (line 56). -/
def PropertyScalarConstraints.setMinimum {α : Type}
    (c : PropertyScalarConstraints α) (val : α) : PropertyScalarConstraints α :=
  { c with m_minimum := val }

/-- PropertyScalarConstraints<T>::setMaximum (line 59). -/
def PropertyScalarConstraints.setMaximum {α : Type}
    (c : PropertyScalarConstraints α) (val : α) : PropertyScalarConstraints α :=
  { c with m_maximum := val }

/-- PropertyScalarConstraints<T>::setSingleStep (line 64). -/
def PropertyScalarConstraints.setSingleStep {α : Type}
    (c : PropertyScalarConstraints α) (step : α) : PropertyScalarConstraints α :=
  { c with m_singleStep := step }

/-- PropertyScalarConstraints<T>::setRange (lines 192-197): setMinimum then
setMaximum. -/
def PropertyScalarConstraints.setRange {α : Type}
    (c : PropertyScalarConstraints α) (minVal maxVal : α) :
    PropertyScalarConstraints α :=
  (c.setMinimum minVal).setMaximum maxVal

/-- Modelled from the spec: the constraint check that the write protocol runs
for scalar/quantity properties. The body of Property::isValid lives in
property.cpp, which is not part of this source slice; spec section 4.1 calls
it the "constraint check for scalar/quantity types" and section 4.3 says
constraints are enforced only when enabled, requiring the committed value to
lie in [minimum, maximum]. -/
def scalarConstraintCheck {α : Type} [LinearOrder α]
    (c : PropertyScalarConstraints α) (v : α) : Result :=
  if c.m_constraintsEnabled then
    if c.m_minimum ≤ v ∧ v ≤ c.m_maximum then Result.ok
    else Result.error "Value out of range"
  else Result.ok

/-- State of a GenericScalarProperty<T> (property_builtins.h lines 73-84): the
inherited GenericProperty<T> value cell and the inherited
PropertyScalarConstraints<T> fields, instrumented with the list of values for
which a value-changed notification has fired so far (an observation log, not a
C++ member: it records the Property::notifyChanged calls). -/
structure GenericScalarProperty (α : Type) where
  m_value : α
  constraints : PropertyScalarConstraints α
  notifiedValues : List α
deriving DecidableEq, Repr

/-- Two-argument constructor GenericScalarProperty(grp, name)
(lines 201-204): value cell default-initialized, constraints
default-constructed (so disabled; their numeric fields stay uninitialized,
modelled by arbitrary arguments). -/
def GenericScalarProperty.mkPlain {α : Type} [Inhabited α]
    (minUninit maxUninit stepUninit : α) : GenericScalarProperty α :=
  ⟨default, PropertyScalarConstraints.mkDefault minUninit maxUninit stepUninit, []⟩

/-- Five-argument constructor GenericScalarProperty(grp, name, minimum,
maximum, singleStep) (lines 206-212): value cell default-initialized,
constraints constructed with the explicit bounds (so enabled). -/
def GenericScalarProperty.mkBounded {α : Type} [Inhabited α]
    (minimum maximum singleStep : α) : GenericScalarProperty α :=
  ⟨default, PropertyScalarConstraints.mkWithBounds minimum maximum singleStep, []⟩

/-- GenericScalarProperty<T>::setValue on the instrumented state: the write
goes through setValueHelper with the scalar constraint check as validation;
when the helper notifies, the committed value is appended to the observation
log. -/
def GenericScalarProperty.setValue {α : Type} [LinearOrder α]
    (hasGroup : Bool) (p : GenericScalarProperty α) (val : α) :
    Result × GenericScalarProperty α :=
  let out := setValueHelper hasGroup (scalarConstraintCheck p.constraints) p.m_value val
  (out.result,
    { p with
        m_value := out.stored
        notifiedValues :=
          if out.notified then p.notifiedValues ++ [out.stored]
          else p.notifiedValues })

/-- Bound mutator setRange lifted to the property state: a plain field update
on the constraints subobject, never touching the value cell and never calling
into the write protocol or notifyChanged. -/
def GenericScalarProperty.setRange {α : Type} (p : GenericScalarProperty α)
    (minVal maxVal : α) : GenericScalarProperty α :=
  { p with constraints := p.constraints.setRange minVal maxVal }

/-- Bound mutator setMinimum lifted to the property state. -/
def GenericScalarProperty.setMinimum {α : Type} (p : GenericScalarProperty α)
    (val : α) : GenericScalarProperty α :=
  { p with constraints := p.constraints.setMinimum val }

/-- Bound mutator setMaximum lifted to the property state. -/
def GenericScalarProperty.setMaximum {α : Type} (p : GenericScalarProperty α)
    (val : α) : GenericScalarProperty α :=
  { p with constraints := p.constraints.setMaximum val }

/-- Bound mutator setSingleStep lifted to the property state. -/
def GenericScalarProperty.setSingleStep {α : Type} (p : GenericScalarProperty α)
    (step : α) : GenericScalarProperty α :=
  { p with constraints := p.constraints.setSingleStep step }

/-- Bound mutator setConstraintsEnabled lifted to the property state. -/
def GenericScalarProperty.setConstraintsEnabled {α : Type}
    (p : GenericScalarProperty α) (onFlag : Bool) : GenericScalarProperty α :=
  { p with constraints := p.constraints.setConstraintsEnabled onFlag }

/-- PropertyGroup state relevant to change-notification blocking: the
m_propertyChangedBlocked flag (property.h line 304). -/
structure PropertyGroup where
  m_propertyChangedBlocked : Bool
deriving DecidableEq, Repr

/-- PropertyGroup::blockPropertyChanged. Modelled from the spec: its body is
in property.cpp, outside this source slice; the header (property.h line 293)
declares the setter of the suppressed flag and spec section 4.2 describes
entering/leaving a blocked region as switching that flag. -/
def PropertyGroup.blockPropertyChanged (g : PropertyGroup) (onFlag : Bool) :
    PropertyGroup :=
  { g with m_propertyChangedBlocked := onFlag }

/-- PropertyGroup::isPropertyChangedBlocked (property.h line 294). -/
def PropertyGroup.isPropertyChangedBlocked (g : PropertyGroup) : Bool :=
  g.m_propertyChangedBlocked

/-- Whether Property::notifyChanged currently delivers
PropertyGroup::onPropertyChanged. Modelled from the spec: notifyChanged's body
is in property.cpp, outside this slice; spec sections 4.1/4.2 state that the
change notification reaches onPropertyChanged unless notifications are
currently blocked for the group. -/
def PropertyGroup.deliversPropertyChanged (g : PropertyGroup) : Bool :=
  !g.m_propertyChangedBlocked

/-- PropertyChangedBlocker guard. Modelled from the spec: the
constructor/destructor bodies are in property.cpp, outside this slice; the
header comment (property.h lines 307-309) states that the constructor blocks
calls to PropertyGroup::onPropertyChanged and the destructor resets the state
to what it was before the constructor ran, so the guard carries the saved
prior blocked state. -/
structure PropertyChangedBlocker where
  savedBlocked : Bool
deriving DecidableEq, Repr

/-- Constructor of PropertyChangedBlocker on its group: save the current
blocked state, then block. Modelled from the spec (see
PropertyChangedBlocker). -/
def PropertyChangedBlocker.enter (g : PropertyGroup) :
    PropertyChangedBlocker × PropertyGroup :=
  (⟨g.isPropertyChangedBlocked⟩, g.blockPropertyChanged true)

/-- Destructor of PropertyChangedBlocker: restore the saved blocked state.
Modelled from the spec (see PropertyChangedBlocker). -/
def PropertyChangedBlocker.leave (bl : PropertyChangedBlocker)
    (g : PropertyGroup) : PropertyGroup :=
  g.blockPropertyChanged bl.savedBlocked

/-- Enter n nested PropertyChangedBlocker guards in sequence. Returns the
guards innermost first, the final group state, and the blocked flag observed
after each enter. -/
def doEnters : Nat → PropertyGroup → List PropertyChangedBlocker × PropertyGroup × List Bool
  | 0, g => ([], g, [])
  | n + 1, g =>
    let e := PropertyChangedBlocker.enter g
    let r := doEnters n e.2
    (r.1 ++ [e.1], r.2.1, e.2.isPropertyChangedBlocked :: r.2.2)

/-- Leave a stack of PropertyChangedBlocker guards, innermost first. Returns
the final group state and the blocked flag observed after each leave. -/
def doLeaves : List PropertyChangedBlocker → PropertyGroup → PropertyGroup × List Bool
  | [], g => (g, [])
  | bl :: rest, g =>
    let g1 := bl.leave g
    let r := doLeaves rest g1
    (r.1, g1.isPropertyChangedBlocked :: r.2)

/-- Trace of the blocked flag when n guards are entered and then all left,
starting from group state g: the initial flag, the flag after each enter, the
flag after each leave. -/
def blockedTrace (n : Nat) (g : PropertyGroup) : List Bool :=
  let e := doEnters n g
  let l := doLeaves e.1 e.2.1
  g.isPropertyChangedBlocked :: (e.2.2 ++ l.2)

/-- Number of observable blocked-to-unblocked transitions along a trace of the
blocked flag: adjacent pairs going from true to false. -/
def countUnblock : List Bool → Nat
  | [] => 0
  | [_] => 0
  | a :: b :: rest => (if a && !b then 1 else 0) + countUnblock (b :: rest)

/-- Modelled from the spec: the Settings registry tree (settings.cpp is not in
this source slice; settings.h lines 47-66 declare addGroup, addSection and
addSetting). Spec sections 3 and 4.5: three append-only levels
Group/Section/Setting; identifiers are unique within their parent scope. A
group is its identifier with its section list; a section is its identifier
with its setting identifier list. -/
structure SettingsState where
  groups : List (String × List (String × List String))
deriving DecidableEq, Repr

/-- Whether a group identifier is already registered. -/
def SettingsState.groupExists (st : SettingsState) (ident : String) : Bool :=
  st.groups.any (fun g => g.1 == ident)

/-- Whether a section identifier is already registered under the group at
index gi. -/
def SettingsState.sectionExists (st : SettingsState) (gi : Nat)
    (ident : String) : Bool :=
  match st.groups[gi]? with
  | some (_, secs) => secs.any (fun s => s.1 == ident)
  | none => false

/-- Whether a setting identifier is already registered under the section at
index si of the group at index gi. -/
def SettingsState.settingExists (st : SettingsState) (gi si : Nat)
    (ident : String) : Bool :=
  match st.groups[gi]? with
  | some (_, secs) =>
    match secs[si]? with
    | some (_, settings) => settings.any (fun s => s == ident)
    | none => false
  | none => false

/-- Whether si is a valid section index of the group at index gi. -/
def SettingsState.sectionIndexOk (st : SettingsState) (gi si : Nat) : Bool :=
  match st.groups[gi]? with
  | some (_, secs) => decide (si < secs.length)
  | none => false

/-- Modelled from the spec: Settings::addGroup. Spec section 4.5: append a new
group and return its index; reject a duplicate identifier explicitly (none)
rather than overwrite. -/
def SettingsState.addGroup (st : SettingsState) (ident : String) :
    Option (Nat × SettingsState) :=
  if st.groupExists ident then none
  else some (st.groups.length, ⟨st.groups ++ [(ident, [])]⟩)

/-- Modelled from the spec: Settings::addSection. Spec section 4.5: append a
new section under the group at index gi and return its index; reject an
identifier already present under that same group (none); an invalid group
index also fails. -/
def SettingsState.addSection (st : SettingsState) (gi : Nat) (ident : String) :
    Option (Nat × SettingsState) :=
  match st.groups[gi]? with
  | none => none
  | some (gid, secs) =>
    if secs.any (fun s => s.1 == ident) then none
    else some (secs.length, ⟨st.groups.set gi (gid, secs ++ [(ident, [])])⟩)

/-- Modelled from the spec: Settings::addSetting under a section. Spec
section 4.5: append a new setting under the section at index si of the group
at index gi and return its index; reject an identifier already present under
that same section (none); an invalid index also fails. -/
def SettingsState.addSetting (st : SettingsState) (gi si : Nat)
    (ident : String) : Option (Nat × SettingsState) :=
  match st.groups[gi]? with
  | none => none
  | some (gid, secs) =>
    match secs[si]? with
    | none => none
    | some (sid, settings) =>
      if settings.any (fun s => s == ident) then none
      else
        some (settings.length,
          ⟨st.groups.set gi (gid, secs.set si (sid, settings ++ [ident]))⟩)

namespace Dxf

/-- A 3D point with exact rational coordinates: models gp_Pnt, with the C++
double coordinates modelled as rationals. -/
structure Pnt where
  x : ℚ
  y : ℚ
  z : ℚ
deriving DecidableEq, Repr

/-- Squared Euclidean distance between two points. gp_Pnt::Distance is its
square root, so Distance p q > 0 iff distSq p q > 0, and
Distance p q <= tol iff distSq p q <= tol^2. -/
def Pnt.distSq (p q : Pnt) : ℚ :=
  (p.x - q.x) ^ 2 + (p.y - q.y) ^ 2 + (p.z - q.z) ^ 2

/-- Precision::Confusion() squared: the OCC confusion tolerance is 1e-7, so
its square is 1e-14. The line callback compares squared distance against
this. -/
def confusionSq : ℚ := 1 / 10 ^ 14

/-- DXF reader parameters used by this slice: the uniform length scaling
factor m_params.scaling. -/
structure DxfReaderParams where
  scaling : ℚ
deriving DecidableEq, Repr

/-- Affine transform as the 3x4 matrix of gp_Trsf::SetValues(a11, a12, a13,
a14, a21, a22, a23, a24, a31, a32, a33, a34), with a14/a24/a34 the
translation column. -/
structure Trsf where
  (a11 a12 a13 a14 a21 a22 a23 a24 a31 a32 a33 a34 : ℚ)
deriving DecidableEq, Repr

/-- Composition of gp_Trsf values: A.mul B is the OCC product A * B, the
transformation applying B first and then A (row-by-column product of the
augmented matrices). -/
def Trsf.mul (A B : Trsf) : Trsf :=
  ⟨A.a11 * B.a11 + A.a12 * B.a21 + A.a13 * B.a31,
   A.a11 * B.a12 + A.a12 * B.a22 + A.a13 * B.a32,
   A.a11 * B.a13 + A.a12 * B.a23 + A.a13 * B.a33,
   A.a11 * B.a14 + A.a12 * B.a24 + A.a13 * B.a34 + A.a14,
   A.a21 * B.a11 + A.a22 * B.a21 + A.a23 * B.a31,
   A.a21 * B.a12 + A.a22 * B.a22 + A.a23 * B.a32,
   A.a21 * B.a13 + A.a22 * B.a23 + A.a23 * B.a33,
   A.a21 * B.a14 + A.a22 * B.a24 + A.a23 * B.a34 + A.a24,
   A.a31 * B.a11 + A.a32 * B.a21 + A.a33 * B.a31,
   A.a31 * B.a12 + A.a32 * B.a22 + A.a33 * B.a32,
   A.a31 * B.a13 + A.a32 * B.a23 + A.a33 * B.a33,
   A.a31 * B.a14 + A.a32 * B.a24 + A.a33 * B.a34 + A.a34⟩

/-- Action of a gp_Trsf on a point (gp_Pnt::Transform). -/
def Trsf.apply (T : Trsf) (p : Pnt) : Pnt :=
  ⟨T.a11 * p.x + T.a12 * p.y + T.a13 * p.z + T.a14,
   T.a21 * p.x + T.a22 * p.y + T.a23 * p.z + T.a24,
   T.a31 * p.x + T.a32 * p.y + T.a33 * p.z + T.a34⟩

/-- The scale transform OnReadInsert builds (io_dxf.cpp lines 241-246):
SetValues with the scale components on the diagonal and zero translation. -/
def trsfScaleOf (sx sy sz : ℚ) : Trsf :=
  ⟨sx, 0, 0, 0, 0, sy, 0, 0, 0, 0, sz, 0⟩

/-- The rotation about gp::OZ() OnReadInsert builds (lines 247-248); c and s
stand for the cosine and sine of the rotation angle. -/
def trsfRotZOf (c s : ℚ) : Trsf :=
  ⟨c, -s, 0, 0, s, c, 0, 0, 0, 0, 1, 0⟩

/-- The translation OnReadInsert builds (lines 249-250): SetTranslation to the
given point. -/
def trsfMoveOf (p : Pnt) : Trsf :=
  ⟨1, 0, 0, p.x, 0, 1, 0, p.y, 0, 0, 1, p.z⟩

/-- Shapes the reader accumulates, as constructed by the callbacks: an edge
between two endpoints (OnReadLine), a vertex (OnReadPoint), an edge lying on
a circle recorded by its center, axis direction, squared radius and the two
trim points of the MakeEdge call that built it (OnReadCircle; the radius of
the gp_Circ is the distance from the scaled start point to the scaled center,
tracked here by its square), and a located compound (OnReadInsert). -/
inductive Shape where
  | lineEdge (p0 p1 : Pnt)
  | vertexPoint (p : Pnt)
  | circleEdge (center : Pnt) (dirUp : Bool) (radiusSq : ℚ) (trimA trimB : Pnt)
  | compound (shapes : List Shape) (location : Trsf)

/-- A circular edge's squared radius, none for other shapes. -/
def Shape.radiusSqOf : Shape → Option ℚ
  | .circleEdge _ _ r _ _ => some r
  | _ => none

/-- A shape has radius r when it is a circular edge whose squared radius is
r^2 with r nonnegative (the exact statement of "the edge's radius is r" for
the square-root-free embedding). -/
def Shape.hasRadius (sh : Shape) (r : ℚ) : Prop :=
  0 ≤ r ∧ sh.radiusSqOf = some (r ^ 2)

/-- DXF reader state used by the callbacks: the layer map m_layers (an
association list keyed by layer name, in map key order) and the current layer
name returned by LayerName(). -/
structure DxfReaderState where
  m_layers : List (String × List Shape)
  currentLayer : String

/-- DxfReader::toPnt (io_dxf.cpp lines 267-279): read the three raw
coordinates and multiply each by the scaling factor when it is not 1. -/
def toPnt (params : DxfReaderParams) (coords : Pnt) : Pnt :=
  if params.scaling ≠ 1 then
    ⟨coords.x * params.scaling, coords.y * params.scaling, coords.z * params.scaling⟩
  else coords

/-- DxfReader::addShape (io_dxf.cpp lines 281-296): look the current layer
name up in m_layers; when found, push the shape onto that layer's vector;
when absent, do nothing to the map - no entry is created and no error is
reported. The non-m_groupLayers branch of the source writes to an external
document object and does not touch m_layers, so it is outside this state. -/
def addShape (st : DxfReaderState) (shape : Shape) : DxfReaderState :=
  if st.m_layers.any (fun kv => kv.1 == st.currentLayer) then
    { st with
        m_layers := st.m_layers.map fun kv =>
          if kv.1 == st.currentLayer then (kv.1, kv.2 ++ [shape]) else kv }
  else st

/-- DxfReader::OnReadLine (io_dxf.cpp lines 116-125): scale both endpoints;
when they are equal within the confusion tolerance
(gp_Pnt::IsEqual(p1, Precision::Confusion()), i.e. squared distance at most
confusionSq) return without adding anything, else add the edge between
them. -/
def OnReadLine (params : DxfReaderParams) (st : DxfReaderState)
    (s e : Pnt) : DxfReaderState :=
  let p0 := toPnt params s
  let p1 := toPnt params e
  if p0.distSq p1 ≤ confusionSq then st
  else addShape st (Shape.lineEdge p0 p1)

/-- Model of BRepBuilderAPI_MakeEdge(circle, pa, pb), the two-trim-point
overload OnReadCircle calls: the builder projects each trim point onto the
circle and bounds the edge by the projections. A trim point lying on the
circle's axis (its projection into the circle's plane - here the plane normal
to Z through the center - coincides with the center itself) cannot be
projected onto the circle: the builder is NotDone and the implicit conversion
to TopoDS_Edge throws StdFail_NotDone, modelled by none. Otherwise the result
is the arc edge of the circle through the two projected trim points, carrying
the circle's radius. -/
def makeEdgeCircleTrimmed (center : Pnt) (dirUp : Bool) (radiusSq : ℚ)
    (pa pb : Pnt) : Option Shape :=
  if (pa.x = center.x ∧ pa.y = center.y) ∨ (pb.x = center.x ∧ pb.y = center.y) then
    none
  else some (Shape.circleEdge center dirUp radiusSq pa pb)

/-- DxfReader::OnReadCircle (io_dxf.cpp lines 165-178): scale the start point
and the center; the gp_Circ radius is the distance from the scaled start
point to the scaled center, so Radius() > 0 holds iff the squared distance is
positive. On a positive radius the source builds the edge as
BRepBuilderAPI_MakeEdge(circle, p0, p1), where p0 is the scaled start point
but the identifier p1 has no declaration anywhere in this translation unit
(the call mirrors OnReadArc's trimmed construction, whose p1 is the scaled
end point; a circle event has no end point), so the value it would denote is
unknown and enters the model as the parameter p1Trim. When the trimmed
construction fails, the StdFail_NotDone exception escapes the callback - no
shape is added and the second component of the result is true; on success the
arc edge is added. A non-positive radius skips the degenerate circle without
touching MakeEdge. -/
def OnReadCircle (params : DxfReaderParams) (st : DxfReaderState)
    (s c : Pnt) (dir : Bool) (p1Trim : Pnt) : DxfReaderState × Bool :=
  let p0 := toPnt params s
  let pc := toPnt params c
  let radiusSq := p0.distSq pc
  if 0 < radiusSq then
    match makeEdgeCircleTrimmed pc dir radiusSq p0 p1Trim with
    | some edge => (addShape st edge, false)
    | none => (st, true)
  else (st, false)

/-- The composed block-insert transform exactly as OnReadInsert computes it
(io_dxf.cpp lines 241-251): trsfScale * trsfRotZ * trsfMove, where gp_Trsf
composition applies the right factor first; c and s stand for the cosine and
sine of the rotation angle, and the translation target is the scaled
insertion point. -/
def insertTrsf (params : DxfReaderParams) (point : Pnt)
    (sx sy sz c s : ℚ) : Trsf :=
  Trsf.mul (Trsf.mul (trsfScaleOf sx sy sz) (trsfRotZOf c s))
    (trsfMoveOf (toPnt params point))

/-- Modelled from the spec: the block-insert transform with the scale applied
first, then the rotation about Z, then the translation to the insertion
point, the fixed order spec section 4.6 states. Applying the scale first
means the composed map is move after rotZ after scale, i.e. the product
trsfMove * trsfRotZ * trsfScale. -/
def specInsertTrsf (params : DxfReaderParams) (point : Pnt)
    (sx sy sz c s : ℚ) : Trsf :=
  Trsf.mul (Trsf.mul (trsfMoveOf (toPnt params point)) (trsfRotZOf c s))
    (trsfScaleOf sx sy sz)

/-- Prefix test of OnReadInsert's layer filter:
std::string_view(k).substr(0, pfx.size()) == pfx, i.e. pfx is a prefix of k,
modelled on the character lists. -/
def strHasPfx (pfx k : String) : Bool :=
  pfx.data.isPrefixOf k.data

/-- DxfReader::OnReadInsert (io_dxf.cpp lines 222-255): for every layer of
m_layers (in map order) whose name starts with "BLOCKS <name> ", build the
compound of its accumulated shapes, set its location to the composed insert
transform and add it through addShape. The shapes of the iterated layer are
read from the live map (the fold accumulator); the null-shape filter and the
comp.IsNull() guard of the source never drop anything here because modelled
shapes and freshly built compounds are never null. -/
def OnReadInsert (params : DxfReaderParams) (st : DxfReaderState)
    (point : Pnt) (sx sy sz c s : ℚ) (blockName : String) : DxfReaderState :=
  let pfx := "BLOCKS " ++ blockName ++ " "
  let trsf := insertTrsf params point sx sy sz c s
  st.m_layers.foldl
    (fun acc kv =>
      if strHasPfx pfx kv.1 then
        let vecShape := ((acc.m_layers.find? fun e => e.1 == kv.1).map Prod.snd).getD kv.2
        addShape acc (Shape.compound vecShape trsf)
      else acc)
    st

end Dxf

/-- C1: for a property with an owning group, the write protocol is atomic: when
validation rejects the candidate value the stored value after the call is the
value before the call, the call returns a failing result and no value-changed
notification fires; when validation accepts it the new value is stored, the
call succeeds and the value-changed notification fires. -/
theorem setValueHelper_atomic {α : Type} (isValid : α → Result)
    (oldValue newValue : α) :
    ((isValid newValue).valid = false →
      (setValueHelper true isValid oldValue newValue).stored = oldValue ∧
      (setValueHelper true isValid oldValue newValue).result.valid = false ∧
      (setValueHelper true isValid oldValue newValue).notified = false) ∧
    ((isValid newValue).valid = true →
      (setValueHelper true isValid oldValue newValue).stored = newValue ∧
      (setValueHelper true isValid oldValue newValue).result.valid = true ∧
      (setValueHelper true isValid oldValue newValue).notified = true) := by
  constructor <;> intro h <;> simp [setValueHelper, h]

/-- C1 witness: with the range check "at most 100" and prior value 50, writing
150 is rejected leaving 50 stored with no notification, and writing 75 is
committed with a notification. -/
theorem setValueHelper_atomic_witness :
    ((setValueHelper true
        (fun v : Int => if v ≤ 100 then Result.ok else Result.error "out of range")
        50 150).stored = 50 ∧
      (setValueHelper true
        (fun v : Int => if v ≤ 100 then Result.ok else Result.error "out of range")
        50 150).result.valid = false ∧
      (setValueHelper true
        (fun v : Int => if v ≤ 100 then Result.ok else Result.error "out of range")
        50 150).notified = false) ∧
    ((setValueHelper true
        (fun v : Int => if v ≤ 100 then Result.ok else Result.error "out of range")
        50 75).stored = 75 ∧
      (setValueHelper true
        (fun v : Int => if v ≤ 100 then Result.ok else Result.error "out of range")
        50 75).result.valid = true ∧
      (setValueHelper true
        (fun v : Int => if v ≤ 100 then Result.ok else Result.error "out of range")
        50 75).notified = true) :=
  ⟨(setValueHelper_atomic _ 50 150).1 (by decide),
   (setValueHelper_atomic _ 50 75).2 (by decide)⟩

/-- C3: setValueFromVariant fails with "Incompatible type" and changes nothing
when the boxed value cannot convert to T; it succeeds only when the boxed
value converts (never silently coercing a wrong-typed value); and boxing via
valueAsVariant always succeeds, producing a variant the same property type
converts back from (shown on the int instantiation). -/
theorem setValueFromVariant_type_safe {α : Type} (hasGroup : Bool)
    (isValid : α → Result) (canConvert : Variant → Bool) (conv : Variant → α)
    (p : GenericProperty α) (variant : Variant) :
    (canConvert variant = false →
      GenericProperty.setValueFromVariant hasGroup isValid canConvert conv p variant =
        ⟨Result.error "Incompatible type", p.m_value, false⟩) ∧
    ((GenericProperty.setValueFromVariant hasGroup isValid canConvert conv p
        variant).result.valid = true →
      canConvert variant = true) ∧
    (∀ q : GenericProperty Int,
      intCanConvert (q.valueAsVariant intFromValue) = true ∧
      intConv (q.valueAsVariant intFromValue) = q.m_value) := by
  refine ⟨fun h => by simp [GenericProperty.setValueFromVariant, h], fun h => ?_,
    fun q => ⟨rfl, rfl⟩⟩
  by_contra hc
  rw [Bool.not_eq_true] at hc
  simp [GenericProperty.setValueFromVariant, hc, Result.valid] at h

/-- C3 witness: an int property holding 7 rejects a boxed string unchanged and
without notifying, a successful write implies convertibility, and boxing 7
yields a variant that converts back to 7. -/
theorem setValueFromVariant_type_safe_witness :
    (intCanConvert (Variant.vString "abc") = false →
      GenericProperty.setValueFromVariant true (fun _ => Result.ok) intCanConvert
        intConv ⟨(7 : Int)⟩ (Variant.vString "abc") =
        ⟨Result.error "Incompatible type", 7, false⟩) ∧
    ((GenericProperty.setValueFromVariant true (fun _ => Result.ok) intCanConvert
        intConv ⟨(7 : Int)⟩ (Variant.vString "abc")).result.valid = true →
      intCanConvert (Variant.vString "abc") = true) ∧
    (∀ q : GenericProperty Int,
      intCanConvert (q.valueAsVariant intFromValue) = true ∧
      intConv (q.valueAsVariant intFromValue) = q.m_value) :=
  setValueFromVariant_type_safe true (fun _ => Result.ok) intCanConvert intConv
    ⟨(7 : Int)⟩ (Variant.vString "abc")

/-- C4: boxing a quantity property's current quantity and unboxing it on an
identically-typed property succeeds through the normal write protocol
(whenever validation accepts the value, in particular for the default
group-validity hook) and reproduces both the unit and the magnitude; the
boxed variant itself lets a consumer recover both the unit tag and the
magnitude. -/
theorem quantity_variant_roundtrip {u : UnitKind} (hasGroup : Bool)
    (isValid : Quantity u → Result) (p q : GenericPropertyQuantity u)
    (hval : (isValid p.m_quantity).valid = true) :
    (q.setValueFromVariant hasGroup isValid p.valueAsVariant).result.valid = true ∧
    (q.setValueFromVariant hasGroup isValid p.valueAsVariant).stored = p.m_quantity ∧
    p.valueAsVariant.quantityUnit = some u ∧
    p.valueAsVariant.quantityMagnitude = some p.m_quantity.value := by
  have hcc : quantityCanConvert u (Variant.vQuantity u p.m_quantity.value) = true := by
    simp [quantityCanConvert]
  have hq : quantityConv u (Variant.vQuantity u p.m_quantity.value) = p.m_quantity := rfl
  cases hasGroup with
  | false =>
    refine ⟨?_, ?_, rfl, rfl⟩ <;>
      simp [GenericPropertyQuantity.setValueFromVariant,
        GenericPropertyQuantity.valueAsVariant, hcc, hq,
        GenericPropertyQuantity.setQuantity, setValueHelper, Result.valid]
  | true =>
    refine ⟨?_, ?_, rfl, rfl⟩ <;>
      simp [GenericPropertyQuantity.setValueFromVariant,
        GenericPropertyQuantity.valueAsVariant, hcc, hq,
        GenericPropertyQuantity.setQuantity, setValueHelper, hval]

/-- C4 witness: a Length property holding magnitude 5, boxed and unboxed into
another Length property under the always-accepting validity hook, commits
magnitude 5, and the variant exposes the Length tag with magnitude 5. -/
theorem quantity_variant_roundtrip_witness :
    ((⟨⟨0⟩⟩ : GenericPropertyQuantity UnitKind.Length).setValueFromVariant true
      (fun _ => Result.ok)
      ((⟨⟨5⟩⟩ : GenericPropertyQuantity UnitKind.Length).valueAsVariant)).result.valid
        = true ∧
    ((⟨⟨0⟩⟩ : GenericPropertyQuantity UnitKind.Length).setValueFromVariant true
      (fun _ => Result.ok)
      ((⟨⟨5⟩⟩ : GenericPropertyQuantity UnitKind.Length).valueAsVariant)).stored
        = ⟨5⟩ ∧
    ((⟨⟨5⟩⟩ : GenericPropertyQuantity UnitKind.Length).valueAsVariant).quantityUnit
        = some UnitKind.Length ∧
    ((⟨⟨5⟩⟩ : GenericPropertyQuantity UnitKind.Length).valueAsVariant).quantityMagnitude
        = some ((⟨⟨5⟩⟩ : GenericPropertyQuantity UnitKind.Length).m_quantity.value) :=
  quantity_variant_roundtrip true (fun _ => Result.ok) ⟨⟨5⟩⟩ ⟨⟨0⟩⟩ rfl

/-- C8: a scalar property constructed without explicit bounds has constraints
disabled, so the scalar constraint check accepts every value, while one
constructed with explicit minimum/maximum/singleStep has constraints
enabled. -/
theorem scalar_constraints_default_inactive {α : Type} [LinearOrder α]
    [Inhabited α] (minimum maximum singleStep junk1 junk2 junk3 v : α) :
    (GenericScalarProperty.mkPlain junk1 junk2 junk3 :
        GenericScalarProperty α).constraints.constraintsEnabled = false ∧
    (scalarConstraintCheck
      (GenericScalarProperty.mkPlain junk1 junk2 junk3 :
        GenericScalarProperty α).constraints v).valid = true ∧
    (GenericScalarProperty.mkBounded minimum maximum singleStep :
        GenericScalarProperty α).constraints.constraintsEnabled = true := by
  refine ⟨rfl, ?_, rfl⟩
  simp [GenericScalarProperty.mkPlain, PropertyScalarConstraints.mkDefault,
    scalarConstraintCheck, PropertyScalarConstraints.constraintsEnabled,
    Result.valid]

/-- C9: mutating a scalar property's bounds through setRange, setMinimum,
setMaximum, setSingleStep or setConstraintsEnabled never changes the stored
value and fires no notification (the observation log is untouched), even when
the current value lies outside the new bounds; setRange updates both bounds
together and leaves the step and the enabled flag unchanged. -/
theorem bound_mutation_frame {α : Type} (p : GenericScalarProperty α)
    (a b v : α) (flag : Bool) :
    ((p.setRange a b).m_value = p.m_value ∧
      (p.setRange a b).notifiedValues = p.notifiedValues ∧
      (p.setRange a b).constraints.m_minimum = a ∧
      (p.setRange a b).constraints.m_maximum = b ∧
      (p.setRange a b).constraints.m_singleStep = p.constraints.m_singleStep ∧
      (p.setRange a b).constraints.m_constraintsEnabled =
        p.constraints.m_constraintsEnabled) ∧
    ((p.setMinimum v).m_value = p.m_value ∧
      (p.setMinimum v).notifiedValues = p.notifiedValues) ∧
    ((p.setMaximum v).m_value = p.m_value ∧
      (p.setMaximum v).notifiedValues = p.notifiedValues) ∧
    ((p.setSingleStep v).m_value = p.m_value ∧
      (p.setSingleStep v).notifiedValues = p.notifiedValues) ∧
    ((p.setConstraintsEnabled flag).m_value = p.m_value ∧
      (p.setConstraintsEnabled flag).notifiedValues = p.notifiedValues) :=
  ⟨⟨rfl, rfl, rfl, rfl, rfl, rfl⟩, ⟨rfl, rfl⟩, ⟨rfl, rfl⟩, ⟨rfl, rfl⟩, ⟨rfl, rfl⟩⟩

/-- C5: in the Settings registry, registering a Group, Section or Setting
whose identifier already exists within the same parent scope is rejected at
registration time (the operation returns none instead of overwriting), while
an identifier absent from a parent scope is accepted there, so the same
identifier can live under two different parents; moreover registering a
section under one group leaves every other group's section scope untouched. -/
theorem settings_unique_identifier_scope (st : SettingsState) (gi gj si : Nat)
    (ident : String) :
    (st.groupExists ident = true → st.addGroup ident = none) ∧
    (st.sectionExists gi ident = true → st.addSection gi ident = none) ∧
    (gi < st.groups.length → st.sectionExists gi ident = false →
      (st.addSection gi ident).isSome = true) ∧
    (∀ k st2, st.addSection gi ident = some (k, st2) → gj ≠ gi →
      st2.sectionExists gj ident = st.sectionExists gj ident) ∧
    (st.settingExists gi si ident = true → st.addSetting gi si ident = none) ∧
    (st.sectionIndexOk gi si = true → st.settingExists gi si ident = false →
      (st.addSetting gi si ident).isSome = true) := by
  refine ⟨fun h => ?_, fun h => ?_, fun hlt hno => ?_, fun k st2 hadd hne => ?_,
    fun h => ?_, fun hok hno => ?_⟩
  · simp [SettingsState.addGroup, h]
  · cases hg : st.groups[gi]? with
    | none => simp [SettingsState.sectionExists, hg] at h
    | some gs =>
      obtain ⟨gid, secs⟩ := gs
      simp only [SettingsState.sectionExists, hg] at h
      simp [SettingsState.addSection, hg, h]
  · cases hg : st.groups[gi]? with
    | none =>
      rw [List.getElem?_eq_none_iff] at hg
      omega
    | some gs =>
      obtain ⟨gid, secs⟩ := gs
      simp only [SettingsState.sectionExists, hg] at hno
      simp [SettingsState.addSection, hg, hno]
  · cases hg : st.groups[gi]? with
    | none => simp [SettingsState.addSection, hg] at hadd
    | some gs =>
      obtain ⟨gid, secs⟩ := gs
      by_cases hany : secs.any (fun s => s.1 == ident) = true
      · simp [SettingsState.addSection, hg, hany] at hadd
      · rw [Bool.not_eq_true] at hany
        simp only [SettingsState.addSection, hg, hany, Bool.false_eq_true,
          if_false, Option.some.injEq, Prod.mk.injEq] at hadd
        obtain ⟨-, rfl⟩ := hadd
        simp only [SettingsState.sectionExists]
        rw [List.getElem?_set_ne (fun he => hne he.symm)]
  · cases hg : st.groups[gi]? with
    | none => simp [SettingsState.settingExists, hg] at h
    | some gs =>
      obtain ⟨gid, secs⟩ := gs
      cases hs : secs[si]? with
      | none => simp [SettingsState.settingExists, hg, hs] at h
      | some ss =>
        obtain ⟨sid, settings⟩ := ss
        simp only [SettingsState.settingExists, hg, hs] at h
        simp [SettingsState.addSetting, hg, hs, h]
  · cases hg : st.groups[gi]? with
    | none => simp [SettingsState.sectionIndexOk, hg] at hok
    | some gs =>
      obtain ⟨gid, secs⟩ := gs
      simp only [SettingsState.sectionIndexOk, hg, decide_eq_true_eq] at hok
      cases hs : secs[si]? with
      | none =>
        rw [List.getElem?_eq_none_iff] at hs
        omega
      | some ss =>
        obtain ⟨sid, settings⟩ := ss
        simp only [SettingsState.settingExists, hg, hs] at hno
        simp [SettingsState.addSetting, hg, hs, hno]

/-- C5 witness: with group G1 already holding a section S and an empty group
G2, registering S under G1 again is rejected while registering S under G2
succeeds, and the rejected registration is exactly what the scope facts give
at that state. -/
theorem settings_unique_identifier_scope_witness :
    ((⟨[("G1", [("S", [])]), ("G2", [])]⟩ : SettingsState).addSection 0 "S"
      = none) ∧
    (((⟨[("G1", [("S", [])]), ("G2", [])]⟩ : SettingsState).addSection 1 "S").isSome
      = true) :=
  ⟨(settings_unique_identifier_scope ⟨[("G1", [("S", [])]), ("G2", [])]⟩ 0 1 0
      "S").2.1 (by decide),
   (settings_unique_identifier_scope ⟨[("G1", [("S", [])]), ("G2", [])]⟩ 1 0 0
      "S").2.2.1 (by decide) (by decide)⟩

/-- Entering n+1 nested guards from group state g: the guards are the n inner
ones (each saving true) followed by the outermost (saving g's flag), the final
state is blocked, and the flag reads true after every enter. -/
theorem doEnters_eq (n : Nat) (g : PropertyGroup) :
    doEnters (n + 1) g =
      (List.replicate n ⟨true⟩ ++ [⟨g.isPropertyChangedBlocked⟩], ⟨true⟩,
        List.replicate (n + 1) true) := by
  induction n generalizing g with
  | zero =>
    simp [doEnters, PropertyChangedBlocker.enter, PropertyGroup.blockPropertyChanged,
      PropertyGroup.isPropertyChangedBlocked]
  | succ m ih =>
    rw [doEnters]
    simp only [PropertyChangedBlocker.enter, PropertyGroup.blockPropertyChanged,
      PropertyGroup.isPropertyChangedBlocked]
    rw [ih]
    simp only [PropertyGroup.isPropertyChangedBlocked, Prod.mk.injEq, true_and,
      and_true]
    constructor
    · rw [List.replicate_succ']
    · rw [← List.replicate_succ]

/-- Leaving a stack of m inner guards (each saving true) and a final guard
saving b: the flag reads true after each inner leave and b after the last,
and the final state carries b. -/
theorem doLeaves_eq (m : Nat) (b : Bool) (g : PropertyGroup) :
    doLeaves (List.replicate m ⟨true⟩ ++ [⟨b⟩]) g =
      (⟨b⟩, List.replicate m true ++ [b]) := by
  induction m generalizing g with
  | zero =>
    simp [doLeaves, PropertyChangedBlocker.leave, PropertyGroup.blockPropertyChanged,
      PropertyGroup.isPropertyChangedBlocked]
  | succ k ih =>
    rw [List.replicate_succ, List.cons_append, doLeaves]
    simp only [PropertyChangedBlocker.leave, PropertyGroup.blockPropertyChanged,
      PropertyGroup.isPropertyChangedBlocked]
    rw [ih]
    simp only [Prod.mk.injEq, List.replicate_succ, List.cons_append, true_and,
      and_true]

/-- Closed form of the blocked-flag trace for n+1 nested guards entered and
left from an initially unblocked group: false, then true throughout, then
false at the last leave. -/
theorem blockedTrace_eq (n : Nat) :
    blockedTrace (n + 1) ⟨false⟩ =
      false :: (List.replicate (2 * n + 1) true ++ [false]) := by
  rw [blockedTrace]
  simp only [doEnters_eq, PropertyGroup.isPropertyChangedBlocked, doLeaves_eq]
  rw [← List.append_assoc, ← List.replicate_add]
  have h2 : n + 1 + n = 2 * n + 1 := by omega
  rw [h2]

/-- A run of k+1 true flags ending in false shows exactly one
blocked-to-unblocked transition. -/
theorem countUnblock_true_run (k : Nat) :
    countUnblock (List.replicate (k + 1) true ++ [false]) = 1 := by
  induction k with
  | zero => rfl
  | succ m ih =>
    rw [List.replicate_succ, List.cons_append]
    rw [show List.replicate (m + 1) true ++ [false] =
      true :: (List.replicate m true ++ [false]) by simp [List.replicate_succ]]
    show (if true && !true then 1 else 0) +
      countUnblock (true :: (List.replicate m true ++ [false])) = 1
    rw [show (true :: (List.replicate m true ++ [false])) =
      List.replicate (m + 1) true ++ [false] by simp [List.replicate_succ]]
    rw [ih]
    decide

/-- C2: change-notification blocking is nestable and state-restoring. With two
nested PropertyChangedBlocker guards, after entering both, delivery of
onPropertyChanged is suppressed; leaving the inner guard still suppresses it;
leaving the outer guard restores exactly the group state that held before the
outer guard was created. Moreover for every nesting depth n of at least 1,
starting unblocked, the whole enter/leave trace shows exactly one
blocked-to-unblocked transition. -/
theorem propertyChangedBlocker_nesting (g0 : PropertyGroup) (n : Nat)
    (hn : 1 ≤ n) (hg : g0.isPropertyChangedBlocked = false) :
    ((PropertyChangedBlocker.enter (PropertyChangedBlocker.enter g0).2).2.deliversPropertyChanged
        = false) ∧
    (((PropertyChangedBlocker.enter (PropertyChangedBlocker.enter g0).2).1.leave
        (PropertyChangedBlocker.enter (PropertyChangedBlocker.enter g0).2).2).deliversPropertyChanged
        = false) ∧
    ((PropertyChangedBlocker.enter g0).1.leave
        ((PropertyChangedBlocker.enter (PropertyChangedBlocker.enter g0).2).1.leave
          (PropertyChangedBlocker.enter (PropertyChangedBlocker.enter g0).2).2)
        = g0) ∧
    countUnblock (blockedTrace n g0) = 1 := by
  refine ⟨rfl, rfl, rfl, ?_⟩
  obtain ⟨m, rfl⟩ : ∃ m, n = m + 1 := ⟨n - 1, (Nat.succ_pred_eq_of_pos hn).symm⟩
  obtain ⟨b⟩ := g0
  rw [PropertyGroup.isPropertyChangedBlocked] at hg
  subst hg
  rw [blockedTrace_eq]
  show (if false && !true then 1 else 0) +
    countUnblock (true :: (List.replicate (2 * m) true ++ [false])) = 1
  rw [show (true :: (List.replicate (2 * m) true ++ [false])) =
    List.replicate (2 * m + 1) true ++ [false] by simp [List.replicate_succ]]
  rw [countUnblock_true_run]
  decide

/-- C2 witness: starting from an unblocked group, entering two nested guards
suppresses delivery, leaving the inner one keeps it suppressed, leaving the
outer one restores the initial state, and the depth-2 trace shows exactly one
blocked-to-unblocked transition. -/
theorem propertyChangedBlocker_nesting_witness :
    ((PropertyChangedBlocker.enter (PropertyChangedBlocker.enter ⟨false⟩).2).2.deliversPropertyChanged
        = false) ∧
    (((PropertyChangedBlocker.enter (PropertyChangedBlocker.enter ⟨false⟩).2).1.leave
        (PropertyChangedBlocker.enter (PropertyChangedBlocker.enter ⟨false⟩).2).2).deliversPropertyChanged
        = false) ∧
    ((PropertyChangedBlocker.enter (⟨false⟩ : PropertyGroup)).1.leave
        ((PropertyChangedBlocker.enter (PropertyChangedBlocker.enter ⟨false⟩).2).1.leave
          (PropertyChangedBlocker.enter (PropertyChangedBlocker.enter ⟨false⟩).2).2)
        = ⟨false⟩) ∧
    countUnblock (blockedTrace 2 ⟨false⟩) = 1 :=
  propertyChangedBlocker_nesting ⟨false⟩ 2 (by decide) rfl

/-- Mapping a layer map through addShape's per-entry update preserves the
layer keys. -/
theorem update_map_fst (l : List (String × List Dxf.Shape)) (name : String)
    (sh : Dxf.Shape) :
    ((l.map fun kv => if kv.1 == name then (kv.1, kv.2 ++ [sh]) else kv).map
      Prod.fst) = l.map Prod.fst := by
  induction l with
  | nil => rfl
  | cons kv rest ih =>
    by_cases h : kv.1 = name <;>
      (simp [h]; intro a b _; by_cases ha : a = name <;> simp [ha])

/-- Finding the updated layer after addShape's per-entry update returns the
original entry with the shape appended. -/
theorem update_find? (l : List (String × List Dxf.Shape)) (name : String)
    (sh : Dxf.Shape) :
    ((l.map fun kv => if kv.1 == name then (kv.1, kv.2 ++ [sh]) else kv).find?
        fun kv => kv.1 == name) =
      (l.find? fun kv => kv.1 == name).map fun kv => (kv.1, kv.2 ++ [sh]) := by
  induction l with
  | nil => rfl
  | cons kv rest ih =>
    by_cases h : kv.1 = name
    · simp [List.find?_cons, h]
    · simp [List.find?_cons, h]
      have hpf : ((fun kv : String × List Dxf.Shape => kv.1 == name) ∘
          fun kv => if kv.1 = name then (kv.1, kv.2 ++ [sh]) else kv) =
          fun kv => kv.1 == name := by
        funext kv
        by_cases ha : kv.1 = name <;> simp [ha]
      rw [hpf]
      cases hf : rest.find? fun kv => kv.1 == name with
      | none => rfl
      | some a =>
        have ha : a.1 = name := by
          have hsome := List.find?_some hf
          simpa using hsome
        simp [ha]

/-- C10: DxfReader::addShape appends the shape to the layer map only when the
reader's current layer name is already a key of m_layers: when the name is
absent the state is returned untouched (the shape is silently dropped and no
new layer entry is ever created - the key set is always preserved), and when
it is present the shape is appended to that layer's vector. -/
theorem addShape_layer_membership (st : Dxf.DxfReaderState) (sh : Dxf.Shape) :
    ((st.m_layers.any fun kv => kv.1 == st.currentLayer) = false →
      Dxf.addShape st sh = st) ∧
    ((Dxf.addShape st sh).m_layers.map Prod.fst = st.m_layers.map Prod.fst) ∧
    ((st.m_layers.any fun kv => kv.1 == st.currentLayer) = true →
      (((Dxf.addShape st sh).m_layers.find? fun kv =>
          kv.1 == st.currentLayer).map Prod.snd) =
        (((st.m_layers.find? fun kv => kv.1 == st.currentLayer).map
          Prod.snd).map fun vec => vec ++ [sh])) := by
  refine ⟨fun h => ?_, ?_, fun h => ?_⟩
  · simp [Dxf.addShape, h]
  · by_cases h : (st.m_layers.any fun kv => kv.1 == st.currentLayer) = true
    · simp only [Dxf.addShape, h, if_true]
      exact update_map_fst st.m_layers st.currentLayer sh
    · rw [Bool.not_eq_true] at h
      simp [Dxf.addShape, h]
  · simp only [Dxf.addShape, h, if_true]
    rw [update_find? st.m_layers st.currentLayer sh]
    cases hf : st.m_layers.find? fun kv => kv.1 == st.currentLayer <;> simp

/-- C10 witness: with current layer L absent from the map the shape is
dropped and the state is unchanged; with L present the shape is appended to
L's vector. -/
theorem addShape_layer_membership_witness :
    (Dxf.addShape ⟨[("A", [])], "L"⟩ (Dxf.Shape.vertexPoint ⟨0, 0, 0⟩) =
      ⟨[("A", [])], "L"⟩) ∧
    ((((Dxf.addShape ⟨[("L", [])], "L"⟩
          (Dxf.Shape.vertexPoint ⟨0, 0, 0⟩)).m_layers.find? fun kv =>
            kv.1 == "L").map Prod.snd) =
      ((([("L", ([] : List Dxf.Shape))] : List (String × List Dxf.Shape)).find?
          fun kv => kv.1 == "L").map Prod.snd).map
        fun vec => vec ++ [Dxf.Shape.vertexPoint ⟨0, 0, 0⟩]) :=
  ⟨(addShape_layer_membership ⟨[("A", [])], "L"⟩ (Dxf.Shape.vertexPoint ⟨0, 0, 0⟩)).1
      (by decide),
   (addShape_layer_membership ⟨[("L", [])], "L"⟩ (Dxf.Shape.vertexPoint ⟨0, 0, 0⟩)).2.2
      (by decide)⟩

/-- C7: the degenerate paths of the claim hold - a circle event whose start
point coincides with its center (computed radius 0) adds zero shapes without
touching MakeEdge, and a line event with coincident endpoints adds no shape -
but the radius-5/scaling-2 scenario is not guaranteed by this source: the
edge is built as MakeEdge(circle, p0, p1) with p1 an identifier declared
nowhere in the translation unit. With the unknown trim point at the origin
(a default gp_Pnt, which is also the claim's own center) the trim point lies
on the circle's axis, the trimmed construction is NotDone, the conversion
throws, and zero shapes are added instead of the claimed one edge of
radius 10; only for an off-axis value of the unknown does the event add
exactly one arc edge of radius 10. -/
theorem onReadCircle_trim_point_bug :
    ((Dxf.OnReadCircle ⟨2⟩ ⟨[("0", [])], "0"⟩ ⟨5, 0, 0⟩ ⟨0, 0, 0⟩ true
        ⟨0, 0, 0⟩).1 = ⟨[("0", [])], "0"⟩) ∧
    ((Dxf.OnReadCircle ⟨2⟩ ⟨[("0", [])], "0"⟩ ⟨5, 0, 0⟩ ⟨0, 0, 0⟩ true
        ⟨0, 0, 0⟩).2 = true) ∧
    ((Dxf.OnReadCircle ⟨2⟩ ⟨[("0", [])], "0"⟩ ⟨5, 0, 0⟩ ⟨0, 0, 0⟩ true
        ⟨0, 10, 0⟩).1.m_layers =
      [("0", [Dxf.Shape.circleEdge ⟨0, 0, 0⟩ true 100 ⟨10, 0, 0⟩ ⟨0, 10, 0⟩])]) ∧
    Dxf.Shape.hasRadius
      (Dxf.Shape.circleEdge ⟨0, 0, 0⟩ true 100 ⟨10, 0, 0⟩ ⟨0, 10, 0⟩) 10 ∧
    (Dxf.OnReadCircle ⟨2⟩ ⟨[("0", [])], "0"⟩ ⟨1, 2, 3⟩ ⟨1, 2, 3⟩ true ⟨7, 7, 7⟩ =
      (⟨[("0", [])], "0"⟩, false)) ∧
    (Dxf.OnReadLine ⟨2⟩ ⟨[("0", [])], "0"⟩ ⟨1, 1, 1⟩ ⟨1, 1, 1⟩ =
      ⟨[("0", [])], "0"⟩) := by
  refine ⟨?_, ?_, ?_, ?_, ?_, ?_⟩
  · norm_num [Dxf.OnReadCircle, Dxf.toPnt, Dxf.Pnt.distSq,
      Dxf.makeEdgeCircleTrimmed]
  · norm_num [Dxf.OnReadCircle, Dxf.toPnt, Dxf.Pnt.distSq,
      Dxf.makeEdgeCircleTrimmed]
  · norm_num [Dxf.OnReadCircle, Dxf.toPnt, Dxf.Pnt.distSq,
      Dxf.makeEdgeCircleTrimmed, Dxf.addShape]
  · exact ⟨by norm_num, by norm_num [Dxf.Shape.radiusSqOf]⟩
  · norm_num [Dxf.OnReadCircle, Dxf.toPnt, Dxf.Pnt.distSq,
      Dxf.makeEdgeCircleTrimmed]
  · norm_num [Dxf.OnReadLine, Dxf.toPnt, Dxf.Pnt.distSq, Dxf.confusionSq]

/-- C6: OnReadInsert composes trsfScale * trsfRotZ * trsfMove, and gp_Trsf
composition applies its right factor first, so the translation to the
insertion point is applied before the scale and rotation and is itself scaled:
with uniform scale 2, rotation 0 and insertion point (1,0,0), the block vertex
at the origin lands at (2,0,0), while the claimed scale-then-rotate-then-
translate order would land it at (1,0,0); on the block layer state this is
exactly the located compound the insert event stores. -/
theorem onReadInsert_translation_scaled :
    ((Dxf.insertTrsf ⟨1⟩ ⟨1, 0, 0⟩ 2 2 2 1 0).apply ⟨0, 0, 0⟩ = ⟨2, 0, 0⟩) ∧
    ((Dxf.specInsertTrsf ⟨1⟩ ⟨1, 0, 0⟩ 2 2 2 1 0).apply ⟨0, 0, 0⟩ = ⟨1, 0, 0⟩) ∧
    ((⟨2, 0, 0⟩ : Dxf.Pnt) ≠ ⟨1, 0, 0⟩) ∧
    ((Dxf.OnReadInsert ⟨1⟩
        ⟨[("0", []), ("BLOCKS B 0", [Dxf.Shape.vertexPoint ⟨0, 0, 0⟩])], "0"⟩
        ⟨1, 0, 0⟩ 2 2 2 1 0 "B").m_layers =
      [("0", [Dxf.Shape.compound [Dxf.Shape.vertexPoint ⟨0, 0, 0⟩]
          (Dxf.insertTrsf ⟨1⟩ ⟨1, 0, 0⟩ 2 2 2 1 0)]),
       ("BLOCKS B 0", [Dxf.Shape.vertexPoint ⟨0, 0, 0⟩])]) := by
  refine ⟨?_, ?_, ?_, ?_⟩
  · norm_num [Dxf.insertTrsf, Dxf.Trsf.mul, Dxf.Trsf.apply, Dxf.trsfScaleOf,
      Dxf.trsfRotZOf, Dxf.trsfMoveOf, Dxf.toPnt]
  · norm_num [Dxf.specInsertTrsf, Dxf.Trsf.mul, Dxf.Trsf.apply, Dxf.trsfScaleOf,
      Dxf.trsfRotZOf, Dxf.trsfMoveOf, Dxf.toPnt]
  · intro h
    have := congrArg Dxf.Pnt.x h
    norm_num at this
  · rfl

end Mayo
